import Mathlib

/-!
Shallow embedding of the railway-support-lab ticket service.

The embedding follows the JavaScript source files:
- `src/routes/tickets.js` (ticket CRUD, list-query building, stats routing),
- the database module (`initializeDatabase`, schema defaults),
- the health router (`GET /health/full`),
- the external-status router (`apiHistory`, `addToHistory`, `MAX_HISTORY`).

Express request handling, the PostgreSQL gateway and JavaScript string
coercions are modelled explicitly; every handler becomes a pure function
from its inputs and the store state to a result and the next store state.
-/

namespace RailwayLab

/-! ## JavaScript primitives -/

/-- Truthiness of an optional string value, as JavaScript `if (x)` sees it:
`undefined` and the empty string are falsy, every other string is truthy. -/
def truthy : Option String → Bool
  | none => false
  | some s => s != ""

/-- JavaScript `String.prototype.trim`: strip whitespace from both
ends. -/
def jsTrim (s : String) : String :=
  String.mk (((s.data.dropWhile Char.isWhitespace).reverse.dropWhile Char.isWhitespace).reverse)

/-- Digits at the front of a character list. -/
def leadingDigits (cs : List Char) : List Char :=
  cs.takeWhile Char.isDigit

/-- Numeric value of a digit list (most significant first). -/
def digitsToNat (ds : List Char) : Nat :=
  ds.foldl (fun n c => 10 * n + (c.toNat - 48)) 0

/-- JavaScript `parseInt` restricted to decimal input, which is the only
form the service receives: skip leading spaces, read an optional sign and
then a maximal run of decimal digits; `none` models `NaN` (no digit found). -/
def jsParseInt (s : String) : Option Int :=
  let cs := s.data.dropWhile (fun c => c = ' ')
  match cs with
  | '-' :: rest =>
      let ds := leadingDigits rest
      if ds.isEmpty then none else some (-(digitsToNat ds : Int))
  | '+' :: rest =>
      let ds := leadingDigits rest
      if ds.isEmpty then none else some (digitsToNat ds : Int)
  | rest =>
      let ds := leadingDigits rest
      if ds.isEmpty then none else some (digitsToNat ds : Int)

/-! ## Store model

A bound statement parameter as node-postgres sends it: a string, an
integer, SQL `NULL`, or JavaScript `NaN` (what `parseInt` yields on
non-numeric input).  PostgreSQL rejects `NaN` where an integer is
expected, which surfaces as a statement error. -/

inductive Param where
  | str (s : String)
  | int (n : Int)
  | null
  | nan
deriving Repr, DecidableEq

/-- Result of `parseInt` as a bound parameter (`NaN` when unparsable). -/
def jsParseIntP (s : String) : Param :=
  match jsParseInt s with
  | some n => Param.int n
  | none => Param.nan

/-- A row of the `support_tickets` table (schema from `initializeDatabase`). -/
structure Ticket where
  id : Nat
  title : String
  description : Option String
  severity : String
  status : String
  customer_id : Option Int
  assigned_to : Option String
  resolution_time : Option Int
  created_at : Nat
  updated_at : Nat
deriving Repr, DecidableEq

/-- The relational store: the `support_tickets` rows, the `SERIAL`
sequence for `id`, and the clock backing SQL `NOW()`. -/
structure Store where
  rows : List Ticket
  nextId : Nat
  now : Nat
deriving Repr, DecidableEq

/-! ## Status router: bounded in-memory history (`routes/status.js`) -/

/-- Cap on the in-memory API-call history (`const MAX_HISTORY = 20`). -/
def MAX_HISTORY : Nat := 20

/-- One probe outcome is `unshift`ed onto the front of `apiHistory`; when
the cap is exceeded the last (oldest) entry is `pop`ped. -/
def addToHistory {α : Type} (entry : α) (apiHistory : List α) : List α :=
  let h := entry :: apiHistory
  if h.length > MAX_HISTORY then h.dropLast else h

/-- The history produced by appending a sequence of probe outcomes, oldest
first, to an initially empty `apiHistory`. -/
def runHistory {α : Type} (entries : List α) : List α :=
  entries.foldl (fun h e => addToHistory e h) []

/-! ## Ticket router: list operation (`GET /`, `routes/tickets.js`) -/

/-- Accumulator for the dynamic list query: the statement text, the bound
parameters, and the running `paramCount`. -/
structure QueryBuild where
  query : String
  params : List Param
  paramCount : Nat
deriving Repr, DecidableEq

/-- One `if (filter) { query += ...; params.push(value); }` block of the
list handler: appended only when the filter value is truthy. -/
def addFilter (cond : Bool) (column : String) (value : Param) (b : QueryBuild) : QueryBuild :=
  if cond then
    { query := b.query ++ " AND " ++ column ++ " = $" ++ toString b.paramCount
      params := b.params ++ [value]
      paramCount := b.paramCount + 1 }
  else b

/-- Query-string inputs of the list operation; `none` is an absent key
(`limit` and `offset` then default to the numbers 50 and 0). -/
structure ListInput where
  status : Option String
  severity : Option String
  customer_id : Option String
  assigned_to : Option String
  limit : Option String
  offset : Option String
deriving Repr, DecidableEq

/-- Bound value for `limit`: the default number 50 when absent, otherwise
`parseInt` of the supplied string. -/
def limitParam (q : ListInput) : Param :=
  match q.limit with
  | none => Param.int 50
  | some s => jsParseIntP s

/-- Bound value for `offset`: the default number 0 when absent, otherwise
`parseInt` of the supplied string. -/
def offsetParam (q : ListInput) : Param :=
  match q.offset with
  | none => Param.int 0
  | some s => jsParseIntP s

/-- The list handler's statement construction: a conjunctive filter over
the truthy keys, then `ORDER BY created_at DESC LIMIT $n OFFSET $m`, with
every caller value pushed into the parameter list. -/
def buildListQuery (q : ListInput) : String × List Param :=
  let b : QueryBuild := ⟨"SELECT * FROM support_tickets WHERE 1=1", [], 1⟩
  let b := addFilter (truthy q.status) "status" (Param.str (q.status.getD "")) b
  let b := addFilter (truthy q.severity) "severity" (Param.str (q.severity.getD "")) b
  let b := addFilter (truthy q.customer_id) "customer_id" (jsParseIntP (q.customer_id.getD "")) b
  let b := addFilter (truthy q.assigned_to) "assigned_to" (Param.str (q.assigned_to.getD "")) b
  (b.query ++ " ORDER BY created_at DESC LIMIT $" ++ toString b.paramCount
     ++ " OFFSET $" ++ toString (b.paramCount + 1),
   b.params ++ [limitParam q, offsetParam q])

/-- The values the list handler binds, collected directly from the input:
exactly the truthy filter values (customer id passed through `parseInt`)
followed by the parsed limit and offset. -/
def suppliedParams (q : ListInput) : List Param :=
  (if truthy q.status then [Param.str (q.status.getD "")] else [])
    ++ (if truthy q.severity then [Param.str (q.severity.getD "")] else [])
    ++ (if truthy q.customer_id then [jsParseIntP (q.customer_id.getD "")] else [])
    ++ (if truthy q.assigned_to then [Param.str (q.assigned_to.getD "")] else [])
    ++ [limitParam q, offsetParam q]

/-! ## Ticket router: get by id (`GET /:id`) -/

/-- Outcome of the get-by-id handler, as the response it sends. -/
inductive GetResult where
  | ok (t : Ticket)
  | notFound
  | storeFailure
deriving Repr, DecidableEq

/-- Store gateway executing `SELECT * FROM support_tickets WHERE id = $1`:
an integer parameter selects the matching rows; binding `NaN` (or a
non-integer) where PostgreSQL expects an integer is a statement error. -/
def execSelectById (p : Param) (st : Store) : Except Unit (List Ticket) :=
  match p with
  | Param.int n => Except.ok (st.rows.filter (fun t => (t.id : Int) == n))
  | _ => Except.error ()

/-- The `GET /:id` handler: `parseInt(id)` is bound as `$1`; an empty row
set is a 404, a statement error is caught and reported as a 500. -/
def getTicketById (idStr : String) (st : Store) : GetResult :=
  match execSelectById (jsParseIntP idStr) st with
  | Except.error _ => GetResult.storeFailure
  | Except.ok [] => GetResult.notFound
  | Except.ok (t :: _) => GetResult.ok t

/-- HTTP status code the get-by-id handler responds with. -/
def getTicketStatusCode (idStr : String) (st : Store) : Nat :=
  match getTicketById idStr st with
  | GetResult.ok _ => 200
  | GetResult.notFound => 404
  | GetResult.storeFailure => 500

/-! ## Ticket router: create (`POST /`) -/

/-- Request body of the create operation.  The handler destructures only
`title`, `description`, `severity`, `customer_id` and `assigned_to`; a
caller-supplied `status` field is carried here to state that it is
ignored. -/
structure CreateBody where
  title : Option String
  description : Option String
  severity : Option String
  customer_id : Option Int
  assigned_to : Option String
  status : Option String
deriving Repr, DecidableEq

/-- Enumerated severities accepted by the create validation. -/
def validSeverities : List String := ["low", "medium", "high", "critical"]

/-- Enumerated statuses accepted by the update validation. -/
def validStatuses : List String := ["open", "in_progress", "resolved", "escalated"]

/-- Outcome of the create handler. -/
inductive CreateResult where
  | badRequest (error : String)
  | created (row : Ticket)
  | storeFailure
deriving Repr, DecidableEq

/-- Whether a result is the 400 InvalidInput response. -/
def CreateResult.isInvalidInput : CreateResult → Bool
  | CreateResult.badRequest _ => true
  | _ => false

/-- JavaScript `x || null` on an optional string: `null` unless truthy. -/
def orNullStr (o : Option String) : Option String :=
  if truthy o then o else none

/-- JavaScript `x || null` on an optional integer: `null` unless truthy
(the number 0 is falsy). -/
def orNullInt (o : Option Int) : Option Int :=
  match o with
  | some n => if n == 0 then none else some n
  | none => none

/-- Store gateway executing the insert
`INSERT INTO support_tickets (title, description, severity, customer_id,
assigned_to) VALUES ($1, $2, $3, $4, $5) RETURNING *`: the new row takes
the next `SERIAL` id, the schema defaults `status = 'open'` (the insert
names no status column), `created_at = updated_at = NOW()`. -/
def execInsert (title : String) (description : Option String) (severity : String)
    (customer_id : Option Int) (assigned_to : Option String) (st : Store) :
    Ticket × Store :=
  let row : Ticket :=
    { id := st.nextId
      title := title
      description := description
      severity := severity
      status := "open"
      customer_id := customer_id
      assigned_to := assigned_to
      resolution_time := none
      created_at := st.now
      updated_at := st.now }
  (row, { st with rows := st.rows ++ [row], nextId := st.nextId + 1 })

/-- The `POST /` handler: reject a falsy or whitespace-only title; reject
a truthy severity outside the enum; otherwise insert with
`severity || 'low'`, `description || null`, `customer_id || null`,
`assigned_to || null` and answer 201 with the stored row. -/
def createTicket (b : CreateBody) (st : Store) : CreateResult × Store :=
  match b.title with
  | none => (CreateResult.badRequest "Title is required", st)
  | some title =>
    if jsTrim title == "" then (CreateResult.badRequest "Title is required", st)
    else if truthy b.severity && !(validSeverities.contains (b.severity.getD "")) then
      (CreateResult.badRequest "Invalid severity. Must be one of: low, medium, high, critical", st)
    else
      let r := execInsert title (orNullStr b.description)
        (if truthy b.severity then b.severity.getD "" else "low")
        (orNullInt b.customer_id) (orNullStr b.assigned_to) st
      (CreateResult.created r.1, r.2)

/-! ## Ticket router: partial update (`PATCH /:id`) -/

/-- Request body of the update operation; `resolution_time` is kept as the
raw value later passed to `parseInt`. -/
structure UpdateBody where
  status : Option String
  severity : Option String
  assigned_to : Option String
  resolution_time : Option String
deriving Repr, DecidableEq

/-- One `SET` fragment of the dynamic update statement together with its
bound parameter. -/
inductive FieldUpd where
  | setStatus (s : String)
  | setSeverity (s : String)
  | setAssignee (a : Option String)
  | setResolution (p : Param)
deriving Repr, DecidableEq

/-- The `updates` array the handler accumulates: one fragment per defined
body field, in the handler's order. -/
def ticketUpdates (b : UpdateBody) : List FieldUpd :=
  (match b.status with | some s => [FieldUpd.setStatus s] | none => [])
    ++ (match b.severity with | some s => [FieldUpd.setSeverity s] | none => [])
    ++ (match b.assigned_to with | some a => [FieldUpd.setAssignee (some a)] | none => [])
    ++ (match b.resolution_time with | some r => [FieldUpd.setResolution (jsParseIntP r)] | none => [])

/-- Outcome of the update handler. -/
inductive UpdateResult where
  | badRequest (error : String)
  | ok (row : Ticket)
  | notFound
  | storeFailure
deriving Repr, DecidableEq

/-- Whether a result is the 400 InvalidInput response. -/
def UpdateResult.isInvalidInput : UpdateResult → Bool
  | UpdateResult.badRequest _ => true
  | _ => false

/-- Whether a `resolution_time` fragment binds `NaN`. -/
def updHasNan : FieldUpd → Bool
  | FieldUpd.setResolution Param.nan => true
  | _ => false

/-- Apply one `SET` fragment to a row. -/
def applyUpd (t : Ticket) : FieldUpd → Ticket
  | FieldUpd.setStatus s => { t with status := s }
  | FieldUpd.setSeverity s => { t with severity := s }
  | FieldUpd.setAssignee a => { t with assigned_to := a }
  | FieldUpd.setResolution p =>
      match p with
      | Param.int n => { t with resolution_time := some n }
      | _ => t

/-- Store gateway executing the dynamic
`UPDATE support_tickets SET ... , updated_at = NOW() WHERE id = $n
RETURNING *`: a `NaN` bound where an integer is expected is a statement
error; otherwise the matching row (if any) gets every fragment applied and
`updated_at` refreshed. -/
def execUpdate (updates : List FieldUpd) (idParam : Param) (st : Store) :
    Except Unit (List Ticket × Store) :=
  match idParam with
  | Param.int n =>
    if updates.any updHasNan then Except.error ()
    else
      match st.rows.find? (fun t => (t.id : Int) == n) with
      | none => Except.ok ([], st)
      | some t =>
        let t' := { updates.foldl applyUpd t with updated_at := st.now }
        Except.ok ([t'],
          { st with rows := st.rows.map (fun r => if (r.id : Int) == n then t' else r) })
  | _ => Except.error ()

/-- Tail of the `PATCH /:id` handler after enum validation: reject when no
recognized field was supplied, otherwise run the single dynamic update
statement, mapping an empty `RETURNING` set to 404 and a statement error
to 500. -/
def updateTicketRun (idStr : String) (b : UpdateBody) (st : Store) : UpdateResult × Store :=
  let updates := ticketUpdates b
  if updates.length == 0 then
    (UpdateResult.badRequest "No valid fields to update", st)
  else
    match execUpdate updates (jsParseIntP idStr) st with
    | Except.error _ => (UpdateResult.storeFailure, st)
    | Except.ok ([], st') => (UpdateResult.notFound, st')
    | Except.ok (t :: _, st') => (UpdateResult.ok t, st')

/-- The `PATCH /:id` handler: validate `status` against its enum when
present (`severity`, `assigned_to`, `resolution_time` are taken as-is),
then proceed to `updateTicketRun`. -/
def updateTicket (idStr : String) (b : UpdateBody) (st : Store) : UpdateResult × Store :=
  match b.status with
  | some s =>
    if !(validStatuses.contains s) then
      (UpdateResult.badRequest "Invalid status. Must be one of: open, in_progress, resolved, escalated", st)
    else updateTicketRun idStr b st
  | none => updateTicketRun idStr b st

/-! ## Express routing of the tickets router

The tickets router is mounted at `/api/tickets` (its own route comments,
the README endpoint table and the test script all document
`GET /api/tickets/...`).  Express tries the router's GET routes in
registration order — `'/'`, then `'/:id'`, then `'/api/stats'` — and the
first pattern matching the sub-path after the mount point wins. -/

/-- One segment of an Express route pattern: a literal or a `:name`
parameter (which matches any single path segment). -/
inductive PathPart where
  | lit (s : String)
  | param (name : String)
deriving Repr, DecidableEq

/-- Express path matching of a pattern against the path's segments. -/
def matchesPattern : List PathPart → List String → Bool
  | [], [] => true
  | PathPart.lit s :: ps, seg :: segs => s == seg && matchesPattern ps segs
  | PathPart.param _ :: ps, _ :: segs => matchesPattern ps segs
  | _, _ => false

/-- The GET handlers of the tickets router. -/
inductive TicketGetRoute where
  | list
  | byId
  | stats
deriving Repr, DecidableEq

/-- GET routes of `routes/tickets.js` in registration order: the list
handler at `'/'`, the get-by-id handler at `'/:id'`, and the statistics
handler at `'/api/stats'`. -/
def ticketGetRoutes : List (List PathPart × TicketGetRoute) :=
  [([], TicketGetRoute.list),
   ([PathPart.param "id"], TicketGetRoute.byId),
   ([PathPart.lit "api", PathPart.lit "stats"], TicketGetRoute.stats)]

/-- Which GET handler a request to the tickets router reaches, given the
path segments after the `/api/tickets` mount point. -/
def dispatchTicketsGet (segs : List String) : Option TicketGetRoute :=
  (ticketGetRoutes.find? (fun r => matchesPattern r.1 segs)).map (fun r => r.2)

/-! ## Health router: full check (`GET /health/full`) -/

/-- Outcome of the bounded-timeout probe of the external gateway: a
resolved response with some HTTP status, or a rejection (network failure
or abort on timeout — both land in the same `catch`). -/
inductive ProbeOutcome where
  | response (status : Nat)
  | failure
deriving Repr, DecidableEq

/-- `response.ok` of the Fetch API: status in the range 200–299. -/
def responseOk (status : Nat) : Bool :=
  200 ≤ status && status < 300

/-- Body of the full health check: aggregate status and the two
sub-checks. -/
structure HealthBody where
  status : String
  database : String
  externalApi : String
deriving Repr, DecidableEq

/-- The `GET /health/full` handler over the raw gateway outcomes: the
store check marks its sub-check from the row count and flips the
aggregate to `degraded` only in its `catch`; the external check only ever
marks its own sub-check; the HTTP code is 200 exactly for aggregate
`healthy`, else 503. -/
def healthFull (dbResult : Except Unit (List Nat)) (ext : ProbeOutcome) :
    Nat × HealthBody :=
  let s0 := "healthy"
  let (database, s1) :=
    match dbResult with
    | Except.ok rows => ((if rows.length > 0 then "healthy" else "unhealthy"), s0)
    | Except.error _ => ("unhealthy", "degraded")
  let externalApi :=
    match ext with
    | ProbeOutcome.response c => if responseOk c then "healthy" else "unhealthy"
    | ProbeOutcome.failure => "unhealthy"
  let statusCode := if s1 == "healthy" then 200 else 503
  (statusCode, ⟨s1, database, externalApi⟩)

/-- Store gateway running `SELECT 1 as health_check`: independent of the
table contents, it yields the single constant row when the store is
reachable and a statement/connection failure otherwise. -/
def healthQueryResult (storeUp : Bool) : Except Unit (List Nat) :=
  if storeUp then Except.ok [1] else Except.error ()

/-- The full health endpoint as a function of store reachability and the
external probe outcome. -/
def healthFullEndpoint (storeUp : Bool) (ext : ProbeOutcome) : Nat × HealthBody :=
  healthFull (healthQueryResult storeUp) ext

/-! ## Database module: schema initialization (`initializeDatabase`) -/

/-- Counts of the schema objects `initializeDatabase` creates: the
`support_tickets` table and the `idx_status` / `idx_severity` indexes. -/
structure SchemaState where
  support_tickets : Nat
  idx_status : Nat
  idx_severity : Nat
deriving Repr, DecidableEq

/-- One DDL statement: creating an object that already exists errors
unless the statement says `IF NOT EXISTS`, in which case it is a
no-op. -/
def runCreate (ifNotExists : Bool) (count : Nat) : Except String Nat :=
  if count == 0 then Except.ok 1
  else if ifNotExists then Except.ok count
  else Except.error "already exists"

/-- `initializeDatabase`: `CREATE TABLE IF NOT EXISTS support_tickets`,
then `CREATE INDEX IF NOT EXISTS idx_status`, then
`CREATE INDEX IF NOT EXISTS idx_severity`; any statement error is
rethrown. -/
def initializeDatabase (s : SchemaState) : Except String SchemaState := do
  let t ← runCreate true s.support_tickets
  let i1 ← runCreate true s.idx_status
  let i2 ← runCreate true s.idx_severity
  Except.ok ⟨t, i1, i2⟩

/-! ## Concrete fixtures used by witnesses and counterexamples -/

/-- A concrete stored ticket. -/
def demoTicket : Ticket :=
  { id := 1, title := "Bug", description := none, severity := "low"
    status := "open", customer_id := none, assigned_to := none
    resolution_time := none, created_at := 3, updated_at := 3 }

/-- A concrete store holding `demoTicket`. -/
def demoStore : Store := { rows := [demoTicket], nextId := 2, now := 7 }

/-! ## Helper lemmas -/

/-- Taking `n` of an appended list ignores everything of the second list
beyond its own first `n` elements. -/
theorem take_append_take {α : Type} (xs ys : List α) (n : Nat) :
    (xs ++ ys.take n).take n = (xs ++ ys).take n := by
  simp only [List.take_append_eq_append_take, List.take_take]
  congr 1
  simp [Nat.min_def, Nat.sub_le]

/-- On a history within the cap, `addToHistory` is exactly `cons` followed
by truncation to the cap. -/
theorem addToHistory_eq_take {α : Type} (e : α) (h : List α)
    (hle : h.length ≤ MAX_HISTORY) :
    addToHistory e h = (e :: h).take MAX_HISTORY := by
  have hle20 : h.length ≤ 20 := hle
  simp only [addToHistory, MAX_HISTORY, List.length_cons]
  rcases Nat.lt_or_ge h.length 20 with hlt | hge
  · rw [if_neg (by omega), List.take_of_length_le (by simp; omega)]
  · have h20 : h.length = 20 := Nat.le_antisymm hle20 hge
    rw [if_pos (by omega), List.dropLast_eq_take]
    simp [h20]

/-- Folding probe outcomes over any in-cap accumulator yields the newest
`MAX_HISTORY` entries, newest first. -/
theorem foldl_addToHistory (entries acc : List α)
    (hle : acc.length ≤ MAX_HISTORY) :
    entries.foldl (fun h e => addToHistory e h) acc
      = (entries.reverse ++ acc).take MAX_HISTORY := by
  induction entries generalizing acc with
  | nil => simp [List.take_of_length_le hle]
  | cons e es ih =>
    rw [List.foldl_cons, ih (addToHistory e acc) (by
      rw [addToHistory_eq_take e acc hle]; simp)]
    rw [addToHistory_eq_take e acc hle, take_append_take]
    simp [List.append_assoc]

/-- The `if c == 0` shape of an `IF NOT EXISTS` statement. -/
theorem runCreate_true (c : Nat) :
    runCreate true c = Except.ok (if c == 0 then 1 else c) := by
  unfold runCreate
  by_cases h : c == 0 <;> simp [h]

/-- Closed form of `initializeDatabase`. -/
theorem initializeDatabase_eq (s : SchemaState) :
    initializeDatabase s = Except.ok
      ⟨if s.support_tickets == 0 then 1 else s.support_tickets,
       if s.idx_status == 0 then 1 else s.idx_status,
       if s.idx_severity == 0 then 1 else s.idx_severity⟩ := by
  rcases s with ⟨a, b, c⟩
  simp [initializeDatabase, runCreate_true, bind, Except.bind]

/-- Validation passed on a non-empty patch never yields the 400 response:
the statement runs and answers 200, 404 or 500. -/
theorem updateTicketRun_not_invalid (idStr : String) (b : UpdateBody) (st : Store)
    (h : ticketUpdates b ≠ []) :
    (updateTicketRun idStr b st).1.isInvalidInput = false := by
  unfold updateTicketRun
  rw [if_neg (by simp [h])]
  rcases hE : execUpdate (ticketUpdates b) (jsParseIntP idStr) st with e | ⟨rows, st'⟩
  · simp [hE, UpdateResult.isInvalidInput]
  · cases rows <;> simp [hE, UpdateResult.isInvalidInput]

/-! ## Claim theorems -/

/-- Claim C7: for every sequence of probe outcomes appended to the
in-memory API-call history, the history length never exceeds 20
(`MAX_HISTORY`), entries are ordered newest-first (the history equals the
reversed arrival order truncated to the cap), and once the cap is
exceeded the evicted entries are exactly the oldest ones. -/
theorem c7_history_bounded_newest_first {α : Type} (entries : List α) :
    runHistory entries = entries.reverse.take MAX_HISTORY ∧
    (runHistory entries).length ≤ MAX_HISTORY := by
  have h := foldl_addToHistory entries ([] : List α) (by simp)
  rw [List.append_nil] at h
  refine ⟨h, ?_⟩
  rw [runHistory, h]
  simp

/-- Claim C9: running `initializeDatabase` a second time against an
already-initialized store produces no error and creates no duplicate
table or indexes — the resulting schema state equals the state after the
first run. -/
theorem c9_schema_init_idempotent (s s' : SchemaState)
    (h : initializeDatabase s = Except.ok s') :
    initializeDatabase s' = Except.ok s' := by
  rw [initializeDatabase_eq] at h
  rcases Except.ok.inj h with rfl
  rw [initializeDatabase_eq]
  rcases s with ⟨a, b, c⟩
  by_cases ha : a == 0 <;> by_cases hb : b == 0 <;> by_cases hc : c == 0 <;>
    simp_all

/-- Witness for C9 at a fresh store: the first run creates the table and
both indexes, and the second run is accepted unchanged. -/
theorem c9_schema_init_idempotent_witness :
    initializeDatabase ⟨1, 1, 1⟩ = Except.ok ⟨1, 1, 1⟩ :=
  c9_schema_init_idempotent ⟨0, 0, 0⟩ ⟨1, 1, 1⟩ (by rfl)

/-- Claim C2: for every store reachability outcome and every outcome of
the external-gateway probe, `GET /health/full` answers 200 with aggregate
status `healthy` exactly when the store sub-check passed and 503 with
`degraded` exactly when it failed, and the external-gateway outcome never
changes the HTTP code or the aggregate status. -/
theorem c2_health_full_contract (storeUp : Bool) (ext ext1 ext2 : ProbeOutcome) :
    (((healthFullEndpoint storeUp ext).1 = 200 ∧
        (healthFullEndpoint storeUp ext).2.status = "healthy") ↔ storeUp = true) ∧
    (((healthFullEndpoint storeUp ext).1 = 503 ∧
        (healthFullEndpoint storeUp ext).2.status = "degraded") ↔ storeUp = false) ∧
    ((healthFullEndpoint storeUp ext1).1 = (healthFullEndpoint storeUp ext2).1 ∧
      (healthFullEndpoint storeUp ext1).2.status
        = (healthFullEndpoint storeUp ext2).2.status) := by
  cases storeUp <;>
    simp [healthFullEndpoint, healthFull, healthQueryResult]

/-- Claim C6: a partial-update request supplying none of the recognized
fields is rejected with the 400 InvalidInput response and the store state
is returned unchanged — no statement is executed. -/
theorem c6_empty_update_rejected (idStr : String) (b : UpdateBody) (st : Store)
    (h1 : b.status = none) (h2 : b.severity = none)
    (h3 : b.assigned_to = none) (h4 : b.resolution_time = none) :
    updateTicket idStr b st = (UpdateResult.badRequest "No valid fields to update", st) := by
  rcases b with ⟨s, sv, a, r⟩
  cases h1; cases h2; cases h3; cases h4
  rfl

/-- Witness for C6: the empty patch against the demo store is rejected
with the store untouched. -/
theorem c6_empty_update_rejected_witness :
    updateTicket "1" ⟨none, none, none, none⟩ demoStore
      = (UpdateResult.badRequest "No valid fields to update", demoStore) :=
  c6_empty_update_rejected "1" ⟨none, none, none, none⟩ demoStore rfl rfl rfl rfl

/-- Claim C5: a create request whose title is absent, empty or
whitespace-only after trimming is rejected with InvalidInput and the
store is returned untouched; a create request with a non-empty title and
no severity and no status supplied stores and returns a row with
`status = "open"` and `severity = "low"`. -/
theorem c5_create_title_validation_and_defaults (b : CreateBody) (st : Store) (t : String) :
    ((b.title = none ∨ (b.title = some t ∧ jsTrim t = "")) →
      createTicket b st = (CreateResult.badRequest "Title is required", st)) ∧
    (b.title = some t → jsTrim t ≠ "" → b.severity = none → b.status = none →
      ∃ row st', createTicket b st = (CreateResult.created row, st') ∧
        row.status = "open" ∧ row.severity = "low" ∧ row.title = t) := by
  constructor
  · rintro (h | ⟨h, htrim⟩)
    · rcases b with ⟨ti, d, sv, ci, a, stt⟩
      cases h
      rfl
    · rcases b with ⟨ti, d, sv, ci, a, stt⟩
      cases h
      simp [createTicket, htrim]
  · intro h hne hsev hstt
    rcases b with ⟨ti, d, sv, ci, a, stt⟩
    cases h; cases hsev; cases hstt
    simp only [createTicket]
    rw [if_neg (by simpa using hne)]
    exact ⟨_, _, rfl, rfl, rfl, rfl⟩

/-- Witness for C5: the whitespace-only title is rejected against the
demo store, and creating with title `"Bug"` alone yields a row with
default status and severity. -/
theorem c5_create_title_validation_and_defaults_witness :
    (createTicket ⟨some " ", none, none, none, none, none⟩ demoStore
        = (CreateResult.badRequest "Title is required", demoStore)) ∧
    (∃ row st', createTicket ⟨some "Bug", none, none, none, none, none⟩ demoStore
        = (CreateResult.created row, st') ∧
      row.status = "open" ∧ row.severity = "low" ∧ row.title = "Bug") :=
  ⟨(c5_create_title_validation_and_defaults ⟨some " ", none, none, none, none, none⟩
      demoStore " ").1 (Or.inr ⟨rfl, by decide⟩),
   (c5_create_title_validation_and_defaults ⟨some "Bug", none, none, none, none, none⟩
      demoStore "Bug").2 rfl (by decide) rfl rfl⟩

/-- Counterexample to claim C3 as stated: the partial-update operation
accepts the severity value `"bogus"`, which is outside the enumerated
set, instead of rejecting it with InvalidInput — the row is updated and
returned with the invalid severity persisted. -/
theorem c3_severity_update_counterexample :
    (updateTicket "1" ⟨none, some "bogus", none, none⟩ demoStore).1
      = UpdateResult.ok
        { id := 1, title := "Bug", description := none, severity := "bogus"
          status := "open", customer_id := none, assigned_to := none
          resolution_time := none, created_at := 3, updated_at := 7 } := by
  decide

/-- Claim C3 (amended): the create operation accepts a supplied severity
exactly when it lies in the enumerated set, rejecting every other
non-empty string with InvalidInput, while an empty-string severity is
treated as absent and accepted (defaulting to low); the update operation
validates status against its full enumerated set, rejecting every other
string with InvalidInput, but applies no enum validation to severity —
every severity string is accepted on update. -/
theorem c3_enum_boundary_amended (sev s a idStr : String) (st : Store)
    (hsev : sev ≠ "") :
    (((createTicket ⟨some "Bug", none, some sev, none, none, none⟩ st).1.isInvalidInput
        = true) ↔ sev ∉ validSeverities) ∧
    ((createTicket ⟨some "Bug", none, some "", none, none, none⟩ st).1.isInvalidInput
        = false) ∧
    (((updateTicket idStr ⟨some s, none, none, none⟩ st).1.isInvalidInput
        = true) ↔ s ∉ validStatuses) ∧
    ((updateTicket idStr ⟨none, some a, none, none⟩ st).1.isInvalidInput
        = false) := by
  have hBug : (jsTrim "Bug" == "") = false := by decide
  refine ⟨?_, ?_, ?_, ?_⟩
  · by_cases hm : sev ∈ validSeverities
    · simp [createTicket, hBug, truthy, List.elem_iff, hm, CreateResult.isInvalidInput]
    · simp [createTicket, hBug, truthy, List.elem_iff, hm, hsev, CreateResult.isInvalidInput]
  · simp [createTicket, hBug, truthy, CreateResult.isInvalidInput]
  · by_cases hm : s ∈ validStatuses
    · have hne : ticketUpdates ⟨some s, none, none, none⟩ ≠ [] := by
        simp [ticketUpdates]
      simp [updateTicket, List.elem_iff, hm,
        updateTicketRun_not_invalid idStr ⟨some s, none, none, none⟩ st hne]
    · simp [updateTicket, List.elem_iff, hm, UpdateResult.isInvalidInput]
  · have hne : ticketUpdates ⟨none, some a, none, none⟩ ≠ [] := by
      simp [ticketUpdates]
    simp [updateTicket,
      updateTicketRun_not_invalid idStr ⟨none, some a, none, none⟩ st hne]

/-- Witness for the amended C3: the create operation rejects severity
`"bogus"` while the update operation lets severity `"junk"` through
validation against the demo store. -/
theorem c3_enum_boundary_amended_witness :
    ((createTicket ⟨some "Bug", none, some "bogus", none, none, none⟩ demoStore).1.isInvalidInput
        = true) ∧
    ((updateTicket "1" ⟨none, some "junk", none, none⟩ demoStore).1.isInvalidInput
        = false) :=
  ⟨((c3_enum_boundary_amended "bogus" "open" "junk" "1" demoStore (by decide)).1).mpr
      (by decide),
   (c3_enum_boundary_amended "bogus" "open" "junk" "1" demoStore (by decide)).2.2.2⟩

/-- Counterexample to claim C4 as stated: the malformed id `"abc"` does
not signal InvalidInput — the handler binds `parseInt("abc")`, i.e.
`NaN`, into the statement, the statement fails, and the caller receives
the 500 StoreFailure response. -/
theorem c4_malformed_id_counterexample :
    getTicketStatusCode "abc" demoStore ≠ 400 ∧
    getTicketStatusCode "abc" demoStore = 500 ∧
    getTicketById "abc" demoStore = GetResult.storeFailure := by
  decide

/-- Claim C4 (amended): a numeric id returns the single matching ticket,
or NotFound when no row matches; a malformed non-numeric id is bound
unparsed (`NaN`) into the store statement and yields StoreFailure (500) —
never NotFound and never InvalidInput. -/
theorem c4_get_by_id_amended (idStr : String) (st : Store) :
    (jsParseInt idStr = none → getTicketById idStr st = GetResult.storeFailure) ∧
    (∀ n : Int, jsParseInt idStr = some n →
      ((∀ t ∈ st.rows, (t.id : Int) ≠ n) → getTicketById idStr st = GetResult.notFound) ∧
      (∀ t : Ticket, getTicketById idStr st = GetResult.ok t →
        t ∈ st.rows ∧ (t.id : Int) = n)) := by
  constructor
  · intro hp
    simp [getTicketById, jsParseIntP, hp, execSelectById]
  · intro n hp
    constructor
    · intro hnone
      have hfil : st.rows.filter (fun t => (t.id : Int) == n) = [] := by
        rw [List.filter_eq_nil_iff]
        intro t ht
        simpa using hnone t ht
      simp [getTicketById, jsParseIntP, hp, execSelectById, hfil]
    · intro t hok
      simp only [getTicketById, jsParseIntP, hp, execSelectById] at hok
      rcases hfil : st.rows.filter (fun t => (t.id : Int) == n) with _ | ⟨t₀, ts⟩
      · rw [hfil] at hok
        exact absurd hok (by simp)
      · rw [hfil] at hok
        have : t₀ = t := by
          cases hok
          rfl
        subst this
        have hmem : t₀ ∈ st.rows.filter (fun t => (t.id : Int) == n) := by
          rw [hfil]; exact List.mem_cons_self t₀ ts
        rcases List.mem_filter.mp hmem with ⟨hmem', hp'⟩
        exact ⟨hmem', by simpa using hp'⟩

/-- Witness for the amended C4: the malformed id `"xyz"` produces the
StoreFailure outcome, and the numeric id `"1"` returns the stored demo
ticket, which indeed lies in the store with id 1. -/
theorem c4_get_by_id_amended_witness :
    getTicketById "xyz" demoStore = GetResult.storeFailure ∧
    (demoTicket ∈ demoStore.rows ∧ ((demoTicket.id : Int) = 1)) :=
  ⟨(c4_get_by_id_amended "xyz" demoStore).1 (by decide),
   ((c4_get_by_id_amended "1" demoStore).2 1 (by decide)).2 demoTicket (by decide)⟩

/-- Claim C1 (code bug witnessed): `GET /api/tickets/stats` never reaches
the statistics handler.  The router registers `'/:id'` before the
statistics route, and the statistics route's path is `'/api/stats'`, so
the documented path dispatches to get-by-id with `id = "stats"`; binding
`parseInt("stats")` (`NaN`) fails the statement and the caller receives
500 with no statistics array, for every store state (shown here on a
populated demo store).  The statistics handler is reachable only at the
undocumented path `/api/tickets/api/stats`. -/
theorem c1_stats_route_shadowed :
    dispatchTicketsGet ["stats"] = some TicketGetRoute.byId ∧
    dispatchTicketsGet ["api", "stats"] = some TicketGetRoute.stats ∧
    getTicketStatusCode "stats" demoStore = 500 ∧
    getTicketStatusCode "stats" { rows := [], nextId := 1, now := 0 } = 500 := by
  decide

/-- Claim C8: for any two list requests whose filter sets have the same
keys present (truthy), the statement text built by the list operation is
identical — regardless of the filter values, limit and offset — and the
bound-parameter list is exactly the caller-supplied values (customer id,
limit and offset passing through `parseInt`), so no caller value ever
enters the statement text. -/
theorem c8_list_query_parameterized (q1 q2 : ListInput)
    (h1 : truthy q1.status = truthy q2.status)
    (h2 : truthy q1.severity = truthy q2.severity)
    (h3 : truthy q1.customer_id = truthy q2.customer_id)
    (h4 : truthy q1.assigned_to = truthy q2.assigned_to) :
    (buildListQuery q1).1 = (buildListQuery q2).1 ∧
    (buildListQuery q1).2 = suppliedParams q1 := by
  constructor
  · cases hs : truthy q1.status <;> cases hv : truthy q1.severity <;>
      cases hc : truthy q1.customer_id <;> cases ha : truthy q1.assigned_to <;>
      simp [buildListQuery, addFilter, hs, hv, hc, ha,
        h1.symm, h2.symm, h3.symm, h4.symm]
  · cases hs : truthy q1.status <;> cases hv : truthy q1.severity <;>
      cases hc : truthy q1.customer_id <;> cases ha : truthy q1.assigned_to <;>
      simp [buildListQuery, suppliedParams, addFilter, hs, hv, hc, ha]

/-- Witness for C8: two requests with the same present keys (status and
customer id) but different values, limits and offsets build the same
statement text, and the first request's parameters are exactly its
supplied values. -/
theorem c8_list_query_parameterized_witness :
    (buildListQuery ⟨some "open", none, some "3", none, some "10", none⟩).1
      = (buildListQuery ⟨some "resolved", none, some "99", none, none, some "5"⟩).1 ∧
    (buildListQuery ⟨some "open", none, some "3", none, some "10", none⟩).2
      = suppliedParams ⟨some "open", none, some "3", none, some "10", none⟩ :=
  c8_list_query_parameterized
    ⟨some "open", none, some "3", none, some "10", none⟩
    ⟨some "resolved", none, some "99", none, none, some "5"⟩
    (by decide) (by decide) (by decide) (by decide)

/-- Claim C10: the create operation ignores any caller-supplied status
field — its outcome is invariant under changing that field (the insert
names no status column and binds no status value) — and every stored row
it returns carries the schema default `status = "open"`. -/
theorem c10_create_ignores_status (b : CreateBody) (st : Store)
    (s1 s2 : Option String) :
    createTicket { b with status := s1 } st = createTicket { b with status := s2 } st ∧
    (∀ row st', createTicket b st = (CreateResult.created row, st') →
      row.status = "open") := by
  constructor
  · rcases b with ⟨ti, d, sv, ci, a, stt⟩
    rfl
  · intro row st' h
    rcases b with ⟨ti, d, sv, ci, a, stt⟩
    cases ti with
    | none => simp [createTicket] at h
    | some t =>
      simp only [createTicket] at h
      split at h
      · simp at h
      · split at h
        · simp at h
        · rw [Prod.mk.injEq] at h
          rcases h with ⟨h1, h2⟩
          rcases CreateResult.created.inj h1 with rfl
          rfl

/-- Witness for C10: a creation request carrying `status = "resolved"`
behaves exactly like one carrying no status, and the row it stores has
status `"open"`. -/
theorem c10_create_ignores_status_witness :
    (createTicket ⟨some "Bug", none, none, none, none, some "resolved"⟩ demoStore
        = createTicket ⟨some "Bug", none, none, none, none, none⟩ demoStore) ∧
    ({ id := 2, title := "Bug", description := none, severity := "low"
       status := "open", customer_id := none, assigned_to := none
       resolution_time := none, created_at := 7, updated_at := 7 : Ticket }).status
      = "open" :=
  ⟨(c10_create_ignores_status ⟨some "Bug", none, none, none, none, none⟩ demoStore
      (some "resolved") none).1,
   (c10_create_ignores_status ⟨some "Bug", none, none, none, none, some "resolved"⟩
      demoStore (some "resolved") (some "resolved")).2
     { id := 2, title := "Bug", description := none, severity := "low"
       status := "open", customer_id := none, assigned_to := none
       resolution_time := none, created_at := 7, updated_at := 7 }
     { rows := [demoTicket,
        { id := 2, title := "Bug", description := none, severity := "low"
          status := "open", customer_id := none, assigned_to := none
          resolution_time := none, created_at := 7, updated_at := 7 }]
       nextId := 3, now := 7 }
     (by decide)⟩

end RailwayLab
